import Mathlib

/-!
Verification of the article HTTP handler in internal/rest/article.go.

The file embeds the handler layer shallowly: the collaborator ArticleService
becomes a record of pure functions, a request becomes the strings the handler
reads from it, and the observable effects of a handler run (bodies written by
Ctx.JSON in order, content-type arguments, the X-Cursor header, collaborator
invocations) are collected in an Output record.

Framework facts used by the embedding, from the fiber v2 API:
 - Ctx.Query returns the raw query value, the empty string when absent;
 - Ctx.Params returns the raw path value;
 - Ctx.JSON takes the value to encode plus an optional content-type string,
   writes the encoded value as the response body (replacing any body written
   before) and returns the marshalling error, which is nil whenever the value
   is encodable;
 - Ctx.Set sets a response header.
-/

namespace Rest

/-- JSON values, as produced by the encodings used in the handler responses. -/
inductive Json where
  | num (n : Int)
  | str (s : String)
  | arr (xs : List Json)
  | obj (fields : List (String × Json))

/-- Whether a JSON value is an object carrying a message field. -/
def Json.hasMessageField : Json → Bool
  | .obj fs => fs.any (fun p => p.1 == "message")
  | _ => false

/-- Modelled from the spec: the domain.Article entity is declared outside src.
Section 3 of the spec describes it as a resource with at least an integer
identifier and a string title; the remaining fields are irrelevant to this
layer, which only passes articles through. -/
structure Article where
  id : Int := 0
  title : String := ""
  deriving DecidableEq

/-- The Go zero value of domain.Article: every field at its zero value. -/
def zeroArticle : Article := {}

/-- JSON encoding of an article (integer id, string title). -/
def encodeArticle (a : Article) : Json :=
  Json.obj [("id", Json.num a.id), ("title", Json.str a.title)]

/-- JSON encoding of a list of articles. -/
def encodeArticles (l : List Article) : Json :=
  Json.arr (l.map encodeArticle)

/-- Modelled from the spec: the domain error values live outside src. Go
sentinel errors created by errors.New are distinct values compared by
identity, which the three constructors capture; mk builds any other error
from its text. -/
inductive Err where
  | ErrInternalServerError
  | ErrNotFound
  | ErrConflict
  | mk (msg : String)
  deriving DecidableEq

/-- Modelled from the spec: the Error method of the domain errors. Scenario 2
of the spec gives the not-found text; the other two texts follow the category
names of section 4.1 and no claim depends on their exact spelling. -/
def errMessage : Err → String
  | .ErrInternalServerError => "internal server error"
  | .ErrNotFound => "not found"
  | .ErrConflict => "conflict"
  | .mk msg => msg

/-! Model of strconv.Atoi. Atoi parses an optional sign followed by at least
one ASCII decimal digit and fails on anything else, including values outside
the 64-bit int range (on a range error Atoi returns a non-nil error, which is
all the call sites look at). -/

/-- Numeric value of an ASCII decimal digit. -/
def digitVal (c : Char) : Option Nat :=
  if '0' ≤ c ∧ c ≤ '9' then some (c.toNat - '0'.toNat) else none

/-- Accumulates the decimal value of a digit string, failing on a non-digit. -/
def parseDigitsAux : List Char → Nat → Option Nat
  | [], acc => some acc
  | c :: cs, acc =>
    match digitVal c with
    | some d => parseDigitsAux cs (acc * 10 + d)
    | none => none

/-- Decimal value of a nonempty all-digit string. -/
def parseDigits : List Char → Option Nat
  | [] => none
  | cs => parseDigitsAux cs 0

/-- Smallest value of the 64-bit Go int. -/
def intMinGo : Int := -(2 ^ 63)

/-- Largest value of the 64-bit Go int. -/
def intMaxGo : Int := 2 ^ 63 - 1

/-- strconv.Atoi: optional sign, then decimal digits, in the int range. -/
def atoi (s : String) : Option Int :=
  let cs := s.toList
  let sd : Int × List Char :=
    match cs with
    | '+' :: rest => (1, rest)
    | '-' :: rest => (-1, rest)
    | _ => (1, cs)
  match parseDigits sd.2 with
  | none => none
  | some n =>
    let v : Int := sd.1 * (n : Int)
    if intMinGo ≤ v ∧ v ≤ intMaxGo then some v else none

/-! The handler layer itself, from internal/rest/article.go. -/

/-- Line 37: the default page size. -/
def defaultNum : Int := 10

/-- net/http status code 200. -/
def statusOK : Int := 200

/-- net/http status code 404. -/
def statusNotFound : Int := 404

/-- net/http status code 409. -/
def statusConflict : Int := 409

/-- net/http status code 500. -/
def statusInternalServerError : Int := 500

/-- The request data the handlers read: the num and cursor query values and
the id path value. A missing query value reads as the empty string. -/
structure Ctx where
  queryNum : String := ""
  queryCursor : String := ""
  paramId : String := ""

/-- One invocation of the collaborator service, with its arguments. -/
inductive ServiceCall where
  | fetch (cursor : String) (num : Int)
  | getByID (id : Int)
  | store (a : Article)
  | delete (id : Int)
  deriving DecidableEq

/-- The ArticleService interface, lines 23 to 30. Each method is a pure
function from its arguments to its results; the context argument carries no
information at this layer and is dropped. Store mutates its argument through
a pointer, so its model returns the article value after the call. -/
structure ArticleService where
  fetch : String → Int → List Article × String × Option Err
  getByID : Int → Article × Option Err
  update : Article → Option Err
  getByTitle : String → Article × Option Err
  store : Article → Article × Option Err
  delete : Int → Option Err

/-- The observable effects of one handler run: every body written by Ctx.JSON
in chronological order (the response carries the last one), the content-type
arguments passed to Ctx.JSON, the X-Cursor header value if set, and the
collaborator invocations in order. -/
structure Output where
  bodies : List Json := []
  ctypes : List String := []
  xCursor : Option String := none
  calls : List ServiceCall := []

/-- Lines 53 to 57: the num query value is parsed with Atoi; on a parse
failure or a zero result the default page size is substituted. -/
def effNum (numS : String) : Int :=
  match atoi numS with
  | none => defaultNum
  | some n => if n = 0 then defaultNum else n

/-- Lines 72 to 82: the errRep body. The message field carries the omitempty
JSON tag, so an empty message is dropped and the encoded object is empty. -/
def encodeErrRep (msg : String) : Json :=
  if msg = "" then Json.obj [] else Json.obj [("message", Json.str msg)]

/-- Lines 76 to 82: ReturnErr writes the errRep body when the error is
non-nil and returns the result of Ctx.JSON, namely the marshalling error.
Encoding a struct holding one string cannot fail, so that returned value is
always nil; the model returns the list of bodies written and the returned
error, of the marshalling-error type. -/
def ReturnErr (er : Option Err) : List Json × Option String :=
  match er with
  | some e => ([encodeErrRep (errMessage e)], none)
  | none => ([], none)

/-- Lines 51 to 70: the List handler. Parses num, reads the cursor, calls
Fetch, runs ReturnErr on the error and returns early only when ReturnErr
returned a non-nil value, then sets the X-Cursor header and writes the list
of articles as the body. -/
def FetchArticle (svc : ArticleService) (c : Ctx) : Output :=
  let num := effNum c.queryNum
  let cursor := c.queryCursor
  let r := svc.fetch cursor num
  let re := ReturnErr r.2.2
  match re.2 with
  | some _ => { bodies := re.1, calls := [ServiceCall.fetch cursor num] }
  | none =>
    { bodies := re.1 ++ [encodeArticles r.1],
      xCursor := some r.2.1,
      calls := [ServiceCall.fetch cursor num] }

/-- Lines 85 to 99: the GetByID handler. When the id path value does not
parse, the handler returns Ctx.JSON of the not-found status code with the
not-found error text as the content-type argument, without touching the
service; otherwise it calls GetByID, runs ReturnErr and writes the article. -/
def GetByID (svc : ArticleService) (c : Ctx) : Output :=
  match atoi c.paramId with
  | none =>
    { bodies := [Json.num statusNotFound], ctypes := [errMessage Err.ErrNotFound] }
  | some idP =>
    let id := idP
    let r := svc.getByID id
    let re := ReturnErr r.2
    match re.2 with
    | some _ => { bodies := re.1, calls := [ServiceCall.getByID id] }
    | none =>
      { bodies := re.1 ++ [encodeArticle r.1], calls := [ServiceCall.getByID id] }

/-- Lines 111 to 129: the Store handler. Binding and validation are disabled,
so a zero-valued article is handed to the collaborator; the body written on
the success path is the article after the call. -/
def Store (svc : ArticleService) (_c : Ctx) : Output :=
  let article := zeroArticle
  let r := svc.store article
  let re := ReturnErr r.2
  match re.2 with
  | some _ => { bodies := re.1, calls := [ServiceCall.store article] }
  | none =>
    { bodies := re.1 ++ [encodeArticle r.1], calls := [ServiceCall.store article] }

/-- Lines 132 to 146: the Delete handler. Parse failure of the id mirrors
GetByID; otherwise Delete is called, ReturnErr runs, and no body is written
on the success path. -/
def Delete (svc : ArticleService) (c : Ctx) : Output :=
  match atoi c.paramId with
  | none =>
    { bodies := [Json.num statusNotFound], ctypes := [errMessage Err.ErrNotFound] }
  | some idP =>
    let id := idP
    let err := svc.delete id
    let re := ReturnErr err
    match re.2 with
    | some _ => { bodies := re.1, calls := [ServiceCall.delete id] }
    | none => { bodies := re.1, calls := [ServiceCall.delete id] }

/-- Lines 148 to 164: the status-code classifier. On a non-nil error it first
logs the error (the first component records the logged errors) and then maps
the three domain sentinel errors to their codes, defaulting to the internal
server error code; identity comparison of Go sentinel errors is constructor
equality here. -/
def getStatusCode (err : Option Err) : List Err × Int :=
  match err with
  | none => ([], statusOK)
  | some e =>
    ([e],
      match e with
      | .ErrInternalServerError => statusInternalServerError
      | .ErrNotFound => statusNotFound
      | .ErrConflict => statusConflict
      | _ => statusInternalServerError)

/-! Concrete collaborator instances, used by witness theorems. -/

/-- A collaborator whose every call succeeds, with recognizable results. -/
def svcOk : ArticleService where
  fetch := fun _ _ => ([{ id := 1, title := "a" }], "cursor123", none)
  getByID := fun i => ({ id := i, title := "t" }, none)
  update := fun _ => none
  getByTitle := fun _ => ({}, none)
  store := fun a => ({ a with id := 7 }, none)
  delete := fun _ => none

/-- A collaborator whose every call fails with an error reading boom, and
whose Fetch still returns a next cursor. -/
def svcErrBoom : ArticleService where
  fetch := fun _ _ => ([], "curX", some (Err.mk "boom"))
  getByID := fun _ => ({}, some (Err.mk "boom"))
  update := fun _ => some (Err.mk "boom")
  getByTitle := fun _ => ({}, some (Err.mk "boom"))
  store := fun a => (a, some (Err.mk "boom"))
  delete := fun _ => some (Err.mk "boom")

/-- A collaborator whose Delete fails with an error whose text is empty. -/
def svcErrEmpty : ArticleService where
  fetch := fun _ _ => ([], "", some (Err.mk ""))
  getByID := fun _ => ({}, some (Err.mk ""))
  update := fun _ => some (Err.mk "")
  getByTitle := fun _ => ({}, some (Err.mk ""))
  store := fun a => (a, some (Err.mk ""))
  delete := fun _ => some (Err.mk "")

/-! Shape lemmas for the handler runs. Central fact: ReturnErr returns the
marshalling error of Ctx.JSON, which is nil for an errRep value, so the
guard testing it at each call site never fires. -/

/-- ReturnErr always returns a nil second component: marshalling an errRep
value cannot fail. -/
theorem returnErr_snd (er : Option Err) : (ReturnErr er).2 = none := by
  cases er <;> rfl

/-- Shape of every FetchArticle run: the guard after ReturnErr never fires,
so the run writes the article list after any error body, sets the X-Cursor
header to the returned next cursor, and calls Fetch exactly once. -/
theorem fetchArticle_eq (svc : ArticleService) (c : Ctx) :
    FetchArticle svc c =
      { bodies := (ReturnErr (svc.fetch c.queryCursor (effNum c.queryNum)).2.2).1
            ++ [encodeArticles (svc.fetch c.queryCursor (effNum c.queryNum)).1],
        xCursor := some (svc.fetch c.queryCursor (effNum c.queryNum)).2.1,
        calls := [ServiceCall.fetch c.queryCursor (effNum c.queryNum)] } := by
  cases her : (svc.fetch c.queryCursor (effNum c.queryNum)).2.2 <;>
    simp [FetchArticle, ReturnErr, her]

/-- Shape of a GetByID run whose id parses: the article body is written after
any error body and GetByID is called exactly once. -/
theorem getByID_eq (svc : ArticleService) (c : Ctx) (idP : Int)
    (h : atoi c.paramId = some idP) :
    GetByID svc c =
      { bodies := (ReturnErr (svc.getByID idP).2).1
            ++ [encodeArticle (svc.getByID idP).1],
        calls := [ServiceCall.getByID idP] } := by
  cases her : (svc.getByID idP).2 <;> simp [GetByID, h, ReturnErr, her]

/-- Shape of every Store run: the post-call article body is written after any
error body and Store is called exactly once with the zero article. -/
theorem store_eq (svc : ArticleService) (c : Ctx) :
    Store svc c =
      { bodies := (ReturnErr (svc.store zeroArticle).2).1
            ++ [encodeArticle (svc.store zeroArticle).1],
        calls := [ServiceCall.store zeroArticle] } := by
  cases her : (svc.store zeroArticle).2 <;> simp [Store, ReturnErr, her]

/-- Shape of a Delete run whose id parses: only the error body, if any, is
written and Delete is called exactly once. -/
theorem delete_eq (svc : ArticleService) (c : Ctx) (idP : Int)
    (h : atoi c.paramId = some idP) :
    Delete svc c =
      { bodies := (ReturnErr (svc.delete idP)).1,
        calls := [ServiceCall.delete idP] } := by
  cases her : svc.delete idP <;> simp [Delete, h, ReturnErr, her]

/-- C1: for the List operation, a num query value that fails integer parsing
or parses to zero makes Fetch receive the default page size 10, and a value
parsing to a nonzero integer, negative values included, makes Fetch receive
exactly that integer. -/
theorem C1_fetch_num_policy (svc : ArticleService) (c : Ctx) :
    ((atoi c.queryNum = none ∨ atoi c.queryNum = some 0) →
      (FetchArticle svc c).calls = [ServiceCall.fetch c.queryCursor 10]) ∧
    (∀ n : Int, atoi c.queryNum = some n → n ≠ 0 →
      (FetchArticle svc c).calls = [ServiceCall.fetch c.queryCursor n]) := by
  constructor
  · intro h
    rw [fetchArticle_eq]
    rcases h with h | h <;> simp [effNum, h, defaultNum]
  · intro n hn hne
    rw [fetchArticle_eq]
    simp [effNum, hn, hne, defaultNum]

/-- Witness for C1 at the inputs abc (parse failure) and -5 (nonzero). -/
theorem C1_fetch_num_policy_witness :
    (FetchArticle svcOk { queryNum := "abc", queryCursor := "k" }).calls
        = [ServiceCall.fetch "k" 10] ∧
    (FetchArticle svcOk { queryNum := "-5", queryCursor := "k" }).calls
        = [ServiceCall.fetch "k" (-5)] :=
  ⟨(C1_fetch_num_policy svcOk { queryNum := "abc", queryCursor := "k" }).1
      (Or.inl rfl),
   (C1_fetch_num_policy svcOk { queryNum := "-5", queryCursor := "k" }).2
      (-5) rfl (by decide)⟩

/-- C2: for the List operation, the cursor query value is the cursor argument
of the single Fetch call, and on a successful Fetch the returned next cursor
is exactly the X-Cursor header value. -/
theorem C2_cursor_roundtrip (svc : ArticleService) (c : Ctx) :
    (FetchArticle svc c).calls
        = [ServiceCall.fetch c.queryCursor (effNum c.queryNum)] ∧
    (∀ listAr nextCursor,
      svc.fetch c.queryCursor (effNum c.queryNum) = (listAr, nextCursor, none) →
      (FetchArticle svc c).xCursor = some nextCursor) := by
  rw [fetchArticle_eq]
  refine ⟨rfl, ?_⟩
  intro listAr nextCursor h
  simp [h]

/-- Witness for C2: the collaborator returning cursor123 makes the header
read cursor123. -/
theorem C2_cursor_roundtrip_witness :
    (FetchArticle svcOk { queryCursor := "tok" }).xCursor = some "cursor123" :=
  (C2_cursor_roundtrip svcOk { queryCursor := "tok" }).2
    [{ id := 1, title := "a" }] "cursor123" rfl

/-- C3, evaluated at the failing input: with a collaborator error, ReturnErr
writes the error body but returns the nil marshalling error, so the guard at
the call sites never fires; FetchArticle, GetByID and Store go on to write
the success-shaped body over the error body, and only Delete leaves the
error body in place. The error response therefore does not short-circuit the
operation, against the claim. -/
theorem C3_error_not_short_circuiting :
    (FetchArticle svcErrBoom {}).bodies
        = [encodeErrRep "boom", encodeArticles []] ∧
    (GetByID svcErrBoom { paramId := "7" }).bodies
        = [encodeErrRep "boom", encodeArticle zeroArticle] ∧
    (Store svcErrBoom {}).bodies
        = [encodeErrRep "boom", encodeArticle zeroArticle] ∧
    (Delete svcErrBoom { paramId := "7" }).bodies = [encodeErrRep "boom"] :=
  ⟨rfl, rfl, rfl, rfl⟩

/-- C4: on a nil collaborator error the translator writes nothing and
returns nil, and each operation produces its normal success response: the
article list for List, the article for GetByID, the post-call article for
Store, and no body for Delete. -/
theorem C4_nil_error_success (svc : ArticleService) (c : Ctx) :
    ReturnErr none = ([], none) ∧
    (∀ listAr nextCursor,
      svc.fetch c.queryCursor (effNum c.queryNum) = (listAr, nextCursor, none) →
      (FetchArticle svc c).bodies = [encodeArticles listAr]) ∧
    (∀ id a, atoi c.paramId = some id → svc.getByID id = (a, none) →
      (GetByID svc c).bodies = [encodeArticle a]) ∧
    (∀ a2, svc.store zeroArticle = (a2, none) →
      (Store svc c).bodies = [encodeArticle a2]) ∧
    (∀ id, atoi c.paramId = some id → svc.delete id = none →
      (Delete svc c).bodies = []) := by
  refine ⟨rfl, ?_, ?_, ?_, ?_⟩
  · intro l nc h
    rw [fetchArticle_eq]
    simp [h, ReturnErr]
  · intro id a hid h
    rw [getByID_eq svc c id hid]
    simp [h, ReturnErr]
  · intro a2 h
    rw [store_eq]
    simp [h, ReturnErr]
  · intro id hid h
    rw [delete_eq svc c id hid]
    simp [h, ReturnErr]

/-- Witness for C4 on the all-success collaborator. -/
theorem C4_nil_error_success_witness :
    (FetchArticle svcOk { paramId := "7" }).bodies
        = [encodeArticles [{ id := 1, title := "a" }]] ∧
    (GetByID svcOk { paramId := "7" }).bodies
        = [encodeArticle { id := 7, title := "t" }] ∧
    (Store svcOk { paramId := "7" }).bodies
        = [encodeArticle { id := 7, title := "" }] ∧
    (Delete svcOk { paramId := "7" }).bodies = [] :=
  ⟨(C4_nil_error_success svcOk { paramId := "7" }).2.1
      [{ id := 1, title := "a" }] "cursor123" rfl,
   (C4_nil_error_success svcOk { paramId := "7" }).2.2.1
      7 { id := 7, title := "t" } rfl rfl,
   (C4_nil_error_success svcOk { paramId := "7" }).2.2.2.1
      { id := 7, title := "" } rfl,
   (C4_nil_error_success svcOk { paramId := "7" }).2.2.2.2 7 rfl rfl⟩

/-- C5: when the id path value fails integer parsing, GetByID and Delete
invoke no collaborator method and respond with the not-found indication:
Ctx.JSON of the not-found status code with the not-found error text as the
content-type argument. -/
theorem C5_parse_failure_not_found (svc : ArticleService) (c : Ctx)
    (h : atoi c.paramId = none) :
    (GetByID svc c).calls = [] ∧
    (Delete svc c).calls = [] ∧
    (GetByID svc c).bodies = [Json.num statusNotFound] ∧
    (GetByID svc c).ctypes = [errMessage Err.ErrNotFound] ∧
    (Delete svc c).bodies = [Json.num statusNotFound] ∧
    (Delete svc c).ctypes = [errMessage Err.ErrNotFound] := by
  unfold GetByID Delete
  rw [h]
  exact ⟨rfl, rfl, rfl, rfl, rfl, rfl⟩

/-- Witness for C5 at the non-integer id xyz. -/
theorem C5_parse_failure_not_found_witness :
    (GetByID svcOk { paramId := "xyz" }).calls = [] ∧
    (Delete svcOk { paramId := "xyz" }).calls = [] ∧
    (GetByID svcOk { paramId := "xyz" }).bodies = [Json.num statusNotFound] ∧
    (GetByID svcOk { paramId := "xyz" }).ctypes = [errMessage Err.ErrNotFound] ∧
    (Delete svcOk { paramId := "xyz" }).bodies = [Json.num statusNotFound] ∧
    (Delete svcOk { paramId := "xyz" }).ctypes = [errMessage Err.ErrNotFound] :=
  C5_parse_failure_not_found svcOk { paramId := "xyz" } rfl

/-- C6, counterexample: the request GET articles with the non-integer id xyz
fails, yet its response body is the JSON-encoded number 404, which carries no
message field, so not every failing request carries a JSON body with a
message field. -/
theorem C6_counterexample_parse_failure_body :
    ((GetByID svcOk { paramId := "xyz" }).bodies.getLast?.getD
        (Json.obj [])).hasMessageField = false ∧
    (GetByID svcOk { paramId := "xyz" }).bodies = [Json.num statusNotFound] :=
  ⟨rfl, rfl⟩

/-- C6 as amended: parameter-parse failures respond with the JSON-encoded
not-found status code and no message field, while a Delete request failing
on a collaborator error whose text is nonempty carries the error object as
its body, and that body has a message field. -/
theorem C6_amended_message_field (svc : ArticleService) (c : Ctx) :
    (atoi c.paramId = none →
      (GetByID svc c).bodies = [Json.num statusNotFound] ∧
      (Delete svc c).bodies = [Json.num statusNotFound]) ∧
    (∀ id e, atoi c.paramId = some id → svc.delete id = some e →
      errMessage e ≠ "" →
      (Delete svc c).bodies = [encodeErrRep (errMessage e)] ∧
      (encodeErrRep (errMessage e)).hasMessageField = true) := by
  constructor
  · intro h
    unfold GetByID Delete
    rw [h]
    exact ⟨rfl, rfl⟩
  · intro id e hid hdel hne
    rw [delete_eq svc c id hid]
    constructor
    · simp [hdel, ReturnErr]
    · simp [encodeErrRep, hne, Json.hasMessageField]

/-- Witness for the amended C6 on a Delete failing with the boom error. -/
theorem C6_amended_message_field_witness :
    (Delete svcErrBoom { paramId := "7" }).bodies = [encodeErrRep "boom"] ∧
    (encodeErrRep "boom").hasMessageField = true := by
  have h := (C6_amended_message_field svcErrBoom { paramId := "7" }).2
    7 (Err.mk "boom") rfl rfl (by decide)
  exact h

/-- C7: the status-code classifier maps the not-found sentinel to 404, the
conflict sentinel to 409, the internal-server sentinel to 500 and every
other non-nil error to 500, and it logs every non-nil error; the nil error
maps to 200 with nothing logged. -/
theorem C7_status_classifier (e : Err) :
    getStatusCode none = ([], statusOK) ∧
    (getStatusCode (some e)).1 = [e] ∧
    (e = Err.ErrNotFound → (getStatusCode (some e)).2 = statusNotFound) ∧
    (e = Err.ErrConflict → (getStatusCode (some e)).2 = statusConflict) ∧
    (e = Err.ErrInternalServerError →
      (getStatusCode (some e)).2 = statusInternalServerError) ∧
    (e ≠ Err.ErrNotFound → e ≠ Err.ErrConflict →
      (getStatusCode (some e)).2 = statusInternalServerError) := by
  refine ⟨rfl, rfl, ?_, ?_, ?_, ?_⟩
  · rintro rfl; rfl
  · rintro rfl; rfl
  · rintro rfl; rfl
  · intro h1 h2
    cases e with
    | ErrNotFound => exact absurd rfl h1
    | ErrConflict => exact absurd rfl h2
    | ErrInternalServerError => rfl
    | mk m => rfl

/-- Witness for C7 at the not-found sentinel and at an unrecognized error. -/
theorem C7_status_classifier_witness :
    (getStatusCode (some Err.ErrNotFound)).2 = statusNotFound ∧
    (getStatusCode (some (Err.mk "boom"))).2 = statusInternalServerError :=
  ⟨(C7_status_classifier Err.ErrNotFound).2.2.1 rfl,
   (C7_status_classifier (Err.mk "boom")).2.2.2.2.2 (by decide) (by decide)⟩

/-- C8, evaluated at the failing input: Fetch returns the cursor curX along
with a non-nil error, yet the X-Cursor header is set to curX, because the
guard after ReturnErr never fires; this contradicts the claim that the
header is never set on a Fetch error. -/
theorem C8_header_set_despite_error :
    (FetchArticle svcErrBoom {}).xCursor = some "curX" ∧
    svcErrBoom.fetch "" 10 = ([], "curX", some (Err.mk "boom")) :=
  ⟨rfl, rfl⟩

/-- C9: every Store run hands the zero-valued article to the collaborator,
and on a nil error the body written is the article as left by the
collaborator call. -/
theorem C9_store_zero_article (svc : ArticleService) (c : Ctx) :
    (Store svc c).calls = [ServiceCall.store zeroArticle] ∧
    (∀ a2, svc.store zeroArticle = (a2, none) →
      (Store svc c).bodies = [encodeArticle a2]) := by
  rw [store_eq]
  refine ⟨rfl, ?_⟩
  intro a2 h
  simp [h, ReturnErr]

/-- Witness for C9 on the collaborator that assigns identifier 7. -/
theorem C9_store_zero_article_witness :
    (Store svcOk {}).calls = [ServiceCall.store zeroArticle] ∧
    (Store svcOk {}).bodies = [encodeArticle { id := 7, title := "" }] :=
  ⟨(C9_store_zero_article svcOk {}).1,
   (C9_store_zero_article svcOk {}).2 { id := 7, title := "" } rfl⟩

/-- C10: a non-nil error whose text is empty makes ReturnErr write the empty
JSON object, which carries no message field at all, and a Delete failing
with such an error has the empty object as its body. -/
theorem C10_empty_message_omitted (svc : ArticleService) (c : Ctx) (e : Err)
    (he : errMessage e = "") :
    ReturnErr (some e) = ([Json.obj []], none) ∧
    (Json.obj []).hasMessageField = false ∧
    (∀ id, atoi c.paramId = some id → svc.delete id = some e →
      (Delete svc c).bodies = [Json.obj []]) := by
  refine ⟨?_, rfl, ?_⟩
  · simp [ReturnErr, encodeErrRep, he]
  · intro id hid hdel
    rw [delete_eq svc c id hid]
    simp [hdel, ReturnErr, encodeErrRep, he]

/-- Witness for C10 at an error with empty text. -/
theorem C10_empty_message_omitted_witness :
    ReturnErr (some (Err.mk "")) = ([Json.obj []], none) ∧
    (Delete svcErrEmpty { paramId := "7" }).bodies = [Json.obj []] :=
  ⟨(C10_empty_message_omitted svcErrEmpty { paramId := "7" } (Err.mk "") rfl).1,
   (C10_empty_message_omitted svcErrEmpty { paramId := "7" } (Err.mk "") rfl).2.2
      7 rfl rfl⟩

end Rest
